import Mathlib

/-!
Verification of the pick-session and visibility logic of the cfb-pick-em
mobile client.

The embedding mirrors the source:
* `handlePickSide` and `submitAllPicks` from the league slate screen
  (the component `LeagueSlateScreen`), with the React component state
  (`tempPicks`, `picks`, `gamesWithLines`) made explicit as `SessionState`;
* `isPickVisible` from the member-picks screen;
* the `Pick` / `League` record types from the supabase type declarations.

Time is modelled as an integer count of milliseconds on a fixed-offset
local clock (the JS `Date` arithmetic in the source uses the device's
local calendar; the embedding assumes a clock without DST jumps, which
the spec itself flags as the source's approximation).  The Unix epoch,
day 0, was a Thursday, hence the `+ 4` in `jsGetDay` mirroring JS
`Date.getDay` (0 = Sunday).
-/

namespace CFB

/-- Side of a pick, `'HOME' | 'AWAY'` in the source. -/
inductive Side
  | HOME
  | AWAY
deriving DecidableEq

/-- Graded outcome of a pick, `'WIN' | 'LOSS' | 'PUSH'` in the source. -/
inductive GameResult
  | WIN
  | LOSS
  | PUSH
deriving DecidableEq

/-- The `Pick` row type from the supabase type declarations.  `line_value`
is a JS number used only as opaque data (never arithmetically combined),
modelled as `Rat`; `unlock_at` is an optional ISO timestamp string,
modelled as an optional `Int`. -/
structure Pick where
  league_id : String
  user_id : String
  season : Int
  week : Int
  game_id : String
  side : Side
  line_value : Rat
  locked : Bool
  unlock_at : Option Int
  result : Option GameResult
  points : Option Rat
  created_at : Int
  updated_at : Int
deriving DecidableEq

/-- The `League` configuration consumed by the slate screen.  The TS type
declares `pick_limit : number`, but every use site guards with
`league.pick_limit || 5`, so a runtime `null`/absent value is modelled as
`none` and the value `0` is kept representable. -/
structure League where
  id : String
  pick_limit : Option Int
  push_points : Rat
deriving DecidableEq

/-- `league.pick_limit || 5` : JS `||` replaces every falsy left operand
(`null`, `undefined`, `0`) by the default `5`. -/
def effectivePickLimit (raw : Option Int) : Int :=
  match raw with
  | none => 5
  | some v => if v = 0 then 5 else v

/- ### Time arithmetic (`unlock_at` computation) -/

def msPerHour : Int := 3600000

def msPerDay : Int := 86400000

/-- Whole local days elapsed since the epoch (floor division, which is
what `/` on `Int` denotes). -/
def daysSinceEpoch (t : Int) : Int :=
  t / msPerDay

/-- Local midnight of the day containing `t` (`setHours(0,0,0,0)`). -/
def startOfDay (t : Int) : Int :=
  daysSinceEpoch t * msPerDay

/-- JS `Date.getDay`: 0 = Sunday, ..., 6 = Saturday; day 0 of the epoch
was a Thursday (= 4). -/
def jsGetDay (t : Int) : Int :=
  (daysSinceEpoch t + 4) % 7

/-- Midnight of the Sunday starting the calendar week containing `t`;
mirrors `currentWeekStart.setDate(currentDate.getDate() - currentDate.getDay())`
followed by truncation of the time of day. -/
def startOfWeekSunday (t : Int) : Int :=
  startOfDay t - jsGetDay t * msPerDay

/-- The source's `saturdayUnlock` computation in `handlePickSide`:
Sunday week start, `+ 6` days (Saturday), `setHours(12,0,0,0)`, then
`setHours(getHours() + 5)` for the fixed eastern-time offset. -/
def computeUnlockAt (t : Int) : Int :=
  startOfWeekSunday t + 6 * msPerDay + 12 * msPerHour + 5 * msPerHour

/-- Stated from the spec's words, for comparison with `computeUnlockAt`:
"the Saturday at 12:00 ... of the calendar week containing the current
moment", before the fixed 5-hour shift. -/
def saturdayNoonOfWeek (t : Int) : Int :=
  startOfWeekSunday t + 6 * msPerDay + 12 * msPerHour

/- ### Session state of the slate screen -/

/-- One entry of the screen's `gamesWithLines` array; the immutable
`game`/`line` payloads are not touched by the handlers modelled here and
are elided, keeping the key and the `existingPick` slot that
`handlePickSide` rewrites. -/
structure GameWithLine where
  gameId : String
  existingPick : Option Pick
deriving DecidableEq

/-- The component state read and written by `handlePickSide` /
`submitAllPicks`: temporary (unsubmitted) picks, durable picks fetched
from storage, and the slate display list. -/
structure SessionState where
  tempPicks : List Pick
  picks : List Pick
  gamesWithLines : List GameWithLine
deriving DecidableEq

/-- `tempPicks.find(pick => pick.game_id === gameId)`. -/
def findTempPick (s : SessionState) (gameId : String) : Option Pick :=
  s.tempPicks.find? fun p => decide (p.game_id = gameId)

/-- `picks.find(pick => pick.game_id === gameId)` (durable picks). -/
def findDurablePick (s : SessionState) (gameId : String) : Option Pick :=
  s.picks.find? fun p => decide (p.game_id = gameId)

/-- Outcome signalled to the user by `handlePickSide` (the alerts in the
source). -/
inductive SelectOutcome
  | alreadySubmitted
  | limitReached
  | selected
deriving DecidableEq

/-- The `newTempPick` object literal built in `handlePickSide`:
`unlock_at` is freshly computed from the current moment, `locked` is
`false`, `created_at`/`updated_at` are the current moment. -/
def mkTempPick (league : League) (userId : String) (season week : Int)
    (gameId : String) (side : Side) (lineValue : Rat) (now : Int) : Pick :=
  { league_id := league.id
    user_id := userId
    season := season
    week := week
    game_id := gameId
    side := side
    line_value := lineValue
    locked := false
    unlock_at := some (computeUnlockAt now)
    result := none
    points := none
    created_at := now
    updated_at := now }

/-- `handlePickSide(gameId, side, lineValue)` from the slate screen, with
the ambient component state and the wall-clock moment `now` made
explicit.  Guard order is the source's: durable pick first, then the
limit check (which only applies when no temporary pick exists yet for
the game), then upsert-by-game into `tempPicks` and refresh of the
`existingPick` slot in `gamesWithLines`. -/
def handlePickSide (league : League) (userId : String) (season week : Int)
    (s : SessionState) (gameId : String) (side : Side) (lineValue : Rat)
    (now : Int) : SessionState × SelectOutcome :=
  if (findDurablePick s gameId).isSome then
    (s, SelectOutcome.alreadySubmitted)
  else if findTempPick s gameId = none ∧
      effectivePickLimit league.pick_limit ≤ (s.tempPicks.length : Int) then
    (s, SelectOutcome.limitReached)
  else
    let newTempPick := mkTempPick league userId season week gameId side lineValue now
    ({ s with
        tempPicks :=
          if (findTempPick s gameId).isSome then
            s.tempPicks.map fun p => if p.game_id = gameId then newTempPick else p
          else s.tempPicks ++ [newTempPick]
        gamesWithLines :=
          s.gamesWithLines.map fun g =>
            if g.gameId = gameId then { g with existingPick := some newTempPick } else g },
     SelectOutcome.selected)

/-- One recorded invocation of `handlePickSide`. -/
structure SelectCall where
  gameId : String
  side : Side
  lineValue : Rat
  now : Int
deriving DecidableEq

/-- Replay a sequence of `handlePickSide` calls against a state. -/
def runSelects (league : League) (userId : String) (season week : Int) :
    SessionState → List SelectCall → SessionState
  | s, [] => s
  | s, c :: rest =>
      runSelects league userId season week
        (handlePickSide league userId season week s c.gameId c.side c.lineValue c.now).1
        rest

/- ### Bulk submission (`submitAllPicks`) -/

/-- The row sent to durable storage for one temporary pick: the
`tempPicks.map(pick => ({...}))` projection inside `submitAllPicks`.
`created_at`/`updated_at` are server-managed and omitted; `locked` is
forced to `false`. -/
structure PickRow where
  league_id : String
  user_id : String
  season : Int
  week : Int
  game_id : String
  side : Side
  line_value : Rat
  unlock_at : Option Int
  locked : Bool
deriving DecidableEq

/-- Projection of a temporary pick to its durable write request. -/
def toWriteRow (p : Pick) : PickRow :=
  { league_id := p.league_id
    user_id := p.user_id
    season := p.season
    week := p.week
    game_id := p.game_id
    side := p.side
    line_value := p.line_value
    unlock_at := p.unlock_at
    locked := false }

/-- The composite identity named by the source's
`onConflict: 'league_id,user_id,season,week,game_id'`. -/
def rowKey (r : PickRow) : String × String × Int × Int × String :=
  (r.league_id, r.user_id, r.season, r.week, r.game_id)

/-- Modelled from the spec: the durable storage service's upsert of one
row, keyed on the composite identity — the storage engine behind the
`upsert(..., { onConflict: 'league_id,user_id,season,week,game_id' })`
call is external to this repository.  A row already present under the
same key is overwritten in place; otherwise the row is appended. -/
def upsertOne (store : List PickRow) (r : PickRow) : List PickRow :=
  if store.any (fun x => decide (rowKey x = rowKey r)) then
    store.map fun x => if rowKey x = rowKey r then r else x
  else store ++ [r]

/-- Modelled from the spec: durable upsert of a batch of rows, applied in
order. -/
def upsertRows (store : List PickRow) (rs : List PickRow) : List PickRow :=
  rs.foldl upsertOne store

/-- Outcome of `submitAllPicks` as the spec's error taxonomy names it:
the source's silent early return on an empty session is `emptySession`,
the catch branch is `failed`. -/
inductive SubmitOutcome
  | emptySession
  | submitted (count : Nat)
  | failed
deriving DecidableEq

/-- Result of one `submitAllPicks` invocation: the component state after
the call, the durable store after the call, whether the remote upsert
was invoked at all, and the signalled outcome. -/
structure SubmitResult where
  session : SessionState
  store : List PickRow
  networkCalled : Bool
  outcome : SubmitOutcome
deriving DecidableEq

/-- `submitAllPicks` from the slate screen, with the durable store made
explicit and the remote call's success injected as `netOk` (the network
is external).  The source's guard `tempPicks.length === 0` returns
before any network call or state change; on error the catch branch
leaves `tempPicks` untouched; on success `tempPicks` is cleared.  (The
`league` null guard, the `submitting` spinner flag and the read-only
refetch `loadSlateAndPicks` after success are elided.) -/
def submitAllPicks (s : SessionState) (store : List PickRow) (netOk : Bool) :
    SubmitResult :=
  if s.tempPicks.length = 0 then
    { session := s, store := store, networkCalled := false
      outcome := SubmitOutcome.emptySession }
  else if netOk then
    { session := { s with tempPicks := [] }
      store := upsertRows store (s.tempPicks.map toWriteRow)
      networkCalled := true
      outcome := SubmitOutcome.submitted s.tempPicks.length }
  else
    { session := s, store := store, networkCalled := true
      outcome := SubmitOutcome.failed }

/-- The completeness test of the slate screen:
`canSubmit = tempPicksCount === pickLimit` with
`pickLimit = league?.pick_limit || 5`. -/
def canSubmit (league : Option League) (tempPicks : List Pick) : Bool :=
  decide ((tempPicks.length : Int) = effectivePickLimit (league.bind League.pick_limit))

/- ### Visibility (`isPickVisible`, member-picks screen) -/

/-- `isPickVisible(pick)` from the member-picks screen.  In the source
the only parameter is the pick; `currentUserId` (the signed-in viewer,
`string | null`) and `userId` (the route parameter naming the member
whose picks are displayed — the owner of every fetched pick) are taken
from component scope, and `now` is read inside the function via
`new Date()`.  The embedding turns those ambient values into explicit
arguments. -/
def isPickVisible (currentUserId : Option String) (userId : String)
    (pick : Pick) (now : Int) : Bool :=
  if currentUserId = some userId then
    true
  else
    match pick.unlock_at with
    | none => true
    | some unlockTime => decide (unlockTime ≤ now)

/- ### Concrete data used to exercise the definitions -/

/-- A league whose configured pick limit is 1. -/
def wLeague : League := { id := "L1", pick_limit := some 1, push_points := 1 }

/-- A league whose configured pick limit is absent (`null`). -/
def nLeague : League := { id := "L0", pick_limit := none, push_points := 1 }

/-- A league whose configured pick limit is 0 (falsy in JS). -/
def zLeague : League := { id := "L0", pick_limit := some 0, push_points := 1 }

/-- A temporary pick for game `g1` as `handlePickSide` would create it. -/
def wPickA : Pick := mkTempPick wLeague "u1" 2025 1 "g1" Side.HOME (-3) 0

/-- The durable write row of `wPickA`. -/
def wRowA : PickRow := toWriteRow wPickA

/-- A write row sharing `wRowA`'s composite key with a different side. -/
def wRowB : PickRow := toWriteRow (mkTempPick wLeague "u1" 2025 1 "g1" Side.AWAY 3 0)

/-- A session with no picks at all. -/
def wSessionEmpty : SessionState := { tempPicks := [], picks := [], gamesWithLines := [] }

/-- A session holding one temporary pick (for game `g1`). -/
def wSessionTemp : SessionState := { tempPicks := [wPickA], picks := [], gamesWithLines := [] }

/-- A session holding one durable (submitted) pick for game `g1`. -/
def wSessionDurable : SessionState :=
  { tempPicks := [], picks := [wPickA], gamesWithLines := [] }

/-- A pick owned by user `bob` that unlocks at time 1000. -/
def clockPick : Pick :=
  { league_id := "L1", user_id := "bob", season := 2025, week := 1, game_id := "g1"
    side := Side.HOME, line_value := -3, locked := false, unlock_at := some 1000
    result := none, points := none, created_at := 0, updated_at := 0 }

/-- A pick with no `unlock_at` restriction. -/
def openPick : Pick := { clockPick with unlock_at := none }

/- ### Helper lemmas: time arithmetic -/

lemma saturdayNoonOfWeek_eq (t : Int) :
    saturdayNoonOfWeek t = (daysSinceEpoch t - jsGetDay t + 6) * msPerDay + 12 * msPerHour := by
  simp only [saturdayNoonOfWeek, startOfWeekSunday, startOfDay, msPerDay, msPerHour]
  ring

lemma daysSinceEpoch_saturdayNoon (t : Int) :
    daysSinceEpoch (saturdayNoonOfWeek t) = daysSinceEpoch t - jsGetDay t + 6 := by
  rw [saturdayNoonOfWeek_eq]
  simp only [daysSinceEpoch, jsGetDay, msPerDay, msPerHour]
  omega

lemma jsGetDay_saturdayNoon (t : Int) :
    jsGetDay (saturdayNoonOfWeek t) = 6 := by
  simp only [jsGetDay, daysSinceEpoch_saturdayNoon]
  simp only [jsGetDay, daysSinceEpoch]
  omega

lemma startOfDay_saturdayNoon (t : Int) :
    startOfDay (saturdayNoonOfWeek t) = (daysSinceEpoch t - jsGetDay t + 6) * msPerDay := by
  rw [startOfDay, daysSinceEpoch_saturdayNoon]

lemma startOfWeekSunday_saturdayNoon (t : Int) :
    startOfWeekSunday (saturdayNoonOfWeek t) = startOfWeekSunday t := by
  rw [startOfWeekSunday, jsGetDay_saturdayNoon, startOfDay_saturdayNoon, startOfWeekSunday,
    startOfDay]
  ring

lemma saturdayNoon_time_of_day (t : Int) :
    saturdayNoonOfWeek t - startOfDay (saturdayNoonOfWeek t) = 12 * msPerHour := by
  rw [startOfDay_saturdayNoon, saturdayNoonOfWeek_eq]
  ring

/- ### Helper lemmas: branch characterization of handlePickSide -/

lemma handlePickSide_durable (league : League) (userId : String) (season week : Int)
    (s : SessionState) (gameId : String) (side : Side) (v : Rat) (now : Int)
    (q : Pick) (hd : findDurablePick s gameId = some q) :
    handlePickSide league userId season week s gameId side v now =
      (s, SelectOutcome.alreadySubmitted) := by
  simp [handlePickSide, hd]

lemma handlePickSide_limit (league : League) (userId : String) (season week : Int)
    (s : SessionState) (gameId : String) (side : Side) (v : Rat) (now : Int)
    (hd : findDurablePick s gameId = none) (ht : findTempPick s gameId = none)
    (hl : effectivePickLimit league.pick_limit ≤ (s.tempPicks.length : Int)) :
    handlePickSide league userId season week s gameId side v now =
      (s, SelectOutcome.limitReached) := by
  simp [handlePickSide, hd, ht, hl]

lemma handlePickSide_append (league : League) (userId : String) (season week : Int)
    (s : SessionState) (gameId : String) (side : Side) (v : Rat) (now : Int)
    (hd : findDurablePick s gameId = none) (ht : findTempPick s gameId = none)
    (hl : ¬ effectivePickLimit league.pick_limit ≤ (s.tempPicks.length : Int)) :
    handlePickSide league userId season week s gameId side v now =
      ({ s with
          tempPicks := s.tempPicks ++ [mkTempPick league userId season week gameId side v now]
          gamesWithLines := s.gamesWithLines.map fun g =>
            if g.gameId = gameId then
              { g with existingPick := some (mkTempPick league userId season week gameId side v now) }
            else g },
       SelectOutcome.selected) := by
  simp [handlePickSide, hd, ht, hl]

lemma handlePickSide_replace (league : League) (userId : String) (season week : Int)
    (s : SessionState) (gameId : String) (side : Side) (v : Rat) (now : Int)
    (p : Pick) (ht : findTempPick s gameId = some p)
    (hd : findDurablePick s gameId = none) :
    handlePickSide league userId season week s gameId side v now =
      ({ s with
          tempPicks := s.tempPicks.map fun p =>
            if p.game_id = gameId then mkTempPick league userId season week gameId side v now
            else p
          gamesWithLines := s.gamesWithLines.map fun g =>
            if g.gameId = gameId then
              { g with existingPick := some (mkTempPick league userId season week gameId side v now) }
            else g },
       SelectOutcome.selected) := by
  simp [handlePickSide, hd, ht]

lemma handlePickSide_picks (league : League) (userId : String) (season week : Int)
    (s : SessionState) (gameId : String) (side : Side) (v : Rat) (now : Int) :
    (handlePickSide league userId season week s gameId side v now).1.picks = s.picks := by
  rcases hd : findDurablePick s gameId with _ | q
  · rcases ht : findTempPick s gameId with _ | p
    · by_cases hl : effectivePickLimit league.pick_limit ≤ (s.tempPicks.length : Int)
      · rw [handlePickSide_limit league userId season week s gameId side v now hd ht hl]
      · rw [handlePickSide_append league userId season week s gameId side v now hd ht hl]
    · rw [handlePickSide_replace league userId season week s gameId side v now p ht hd]
  · rw [handlePickSide_durable league userId season week s gameId side v now q hd]

lemma handlePickSide_length_le (league : League) (userId : String) (season week : Int)
    (s : SessionState) (gameId : String) (side : Side) (v : Rat) (now : Int)
    (h : (s.tempPicks.length : Int) ≤ effectivePickLimit league.pick_limit) :
    (((handlePickSide league userId season week s gameId side v now).1.tempPicks.length : Int)) ≤
      effectivePickLimit league.pick_limit := by
  rcases hd : findDurablePick s gameId with _ | q
  · rcases ht : findTempPick s gameId with _ | p
    · by_cases hl : effectivePickLimit league.pick_limit ≤ (s.tempPicks.length : Int)
      · rw [handlePickSide_limit league userId season week s gameId side v now hd ht hl]
        exact h
      · rw [handlePickSide_append league userId season week s gameId side v now hd ht hl]
        simp only [List.length_append, List.length_cons, List.length_nil]
        push_cast
        omega
    · rw [handlePickSide_replace league userId season week s gameId side v now p ht hd]
      simpa using h
  · rw [handlePickSide_durable league userId season week s gameId side v now q hd]
    exact h

/- ### Helper lemmas: list replacement and durable upsert -/

lemma find?_map_replace (l : List Pick) (gameId : String) (n : Pick)
    (hn : n.game_id = gameId)
    (h : (l.find? fun p => decide (p.game_id = gameId)).isSome = true) :
    ((l.map fun p => if p.game_id = gameId then n else p).find?
        fun p => decide (p.game_id = gameId)) = some n := by
  induction l with
  | nil => simp at h
  | cons a tl ih =>
    by_cases ha : a.game_id = gameId
    · rw [List.map_cons, if_pos ha]
      exact List.find?_cons_of_pos _ (by simp [hn])
    · rw [List.find?_cons_of_neg _ (by simp [ha])] at h
      rw [List.map_cons, if_neg ha, List.find?_cons_of_neg _ (by simp [ha])]
      exact ih h

lemma filter_map_replace (l : List Pick) (gameId : String) (n : Pick)
    (hn : n.game_id = gameId) :
    ((l.map fun p => if p.game_id = gameId then n else p).filter
        fun p => decide (p.game_id = gameId)) =
      (l.filter fun p => decide (p.game_id = gameId)).map fun _ => n := by
  induction l with
  | nil => simp
  | cons a tl ih =>
    by_cases ha : a.game_id = gameId
    · rw [List.map_cons, if_pos ha, List.filter_cons_of_pos (by simp [hn]),
        List.filter_cons_of_pos (by simp [ha]), List.map_cons, ih]
    · rw [List.map_cons, if_neg ha, List.filter_cons_of_neg (by simp [ha]),
        List.filter_cons_of_neg (by simp [ha]), ih]

lemma mem_upsertOne_self (store : List PickRow) (r : PickRow) : r ∈ upsertOne store r := by
  rw [upsertOne]
  split
  · next h =>
    rw [List.any_eq_true] at h
    obtain ⟨x, hx, hkx⟩ := h
    simp only [decide_eq_true_eq] at hkx
    exact List.mem_map.mpr ⟨x, hx, by rw [if_pos hkx]⟩
  · exact List.mem_append_right _ (List.mem_singleton.mpr rfl)

lemma mem_upsertOne_of_ne (store : List PickRow) (r x : PickRow) (hx : x ∈ store)
    (hne : rowKey x ≠ rowKey r) : x ∈ upsertOne store r := by
  rw [upsertOne]
  split
  · exact List.mem_map.mpr ⟨x, hx, by rw [if_neg hne]⟩
  · exact List.mem_append_left _ hx

lemma mem_upsertRows_of_not_key (rs : List PickRow) :
    ∀ (store : List PickRow) (x : PickRow), x ∈ store → rowKey x ∉ rs.map rowKey →
      x ∈ upsertRows store rs := by
  induction rs with
  | nil => intro store x hx _; simpa [upsertRows] using hx
  | cons r tl ih =>
    intro store x hx hk
    rw [List.map_cons, List.mem_cons, not_or] at hk
    rw [upsertRows, List.foldl_cons]
    exact ih (upsertOne store r) x (mem_upsertOne_of_ne store r x hx hk.1) hk.2

lemma mem_upsertRows_self (rs : List PickRow) :
    ∀ (store : List PickRow) (r : PickRow), r ∈ rs → (rs.map rowKey).Nodup →
      r ∈ upsertRows store rs := by
  induction rs with
  | nil => intro _ r h _; cases h
  | cons a tl ih =>
    intro store r hr hnd
    rw [List.map_cons, List.nodup_cons] at hnd
    rcases List.mem_cons.mp hr with rfl | hrtl
    · rw [upsertRows, List.foldl_cons]
      exact mem_upsertRows_of_not_key tl (upsertOne store r) r (mem_upsertOne_self store r)
        (by simpa using hnd.1)
    · rw [upsertRows, List.foldl_cons]
      exact ih (upsertOne store a) r hrtl hnd.2

lemma upsertOne_overwrite (store : List PickRow) (r : PickRow)
    (h : store.any (fun x => decide (rowKey x = rowKey r)) = true) :
    (upsertOne store r).length = store.length ∧ r ∈ upsertOne store r :=
  ⟨by rw [upsertOne, if_pos h]; exact List.length_map _ _, mem_upsertOne_self store r⟩

lemma upsertOne_insert (store : List PickRow) (r : PickRow)
    (h : store.any (fun x => decide (rowKey x = rowKey r)) = false) :
    upsertOne store r = store ++ [r] := by
  rw [upsertOne, if_neg (by simp [h])]

lemma find?_append_singleton (l : List Pick) (g : String) (n : Pick)
    (hn : n.game_id = g) (h : l.find? (fun p => decide (p.game_id = g)) = none) :
    (l ++ [n]).find? (fun p => decide (p.game_id = g)) = some n := by
  rw [List.find?_append, h]
  simp [hn]

/- ### Claim theorems -/

/-- C3: once a durable (already-submitted) pick exists for a game, every
`selectSide` call for that game fails with `AlreadySubmitted` and performs
no mutation: the returned state is exactly the state before the call. -/
theorem selectSide_immutable_after_submit (league : League) (userId : String)
    (season week : Int) (s : SessionState) (gameId : String) (side : Side)
    (v : Rat) (now : Int)
    (h : (findDurablePick s gameId).isSome = true) :
    handlePickSide league userId season week s gameId side v now =
      (s, SelectOutcome.alreadySubmitted) := by
  obtain ⟨q, hq⟩ := Option.isSome_iff_exists.mp h
  exact handlePickSide_durable league userId season week s gameId side v now q hq

/-- Witness for C3 at a concrete session holding a durable pick. -/
theorem selectSide_immutable_after_submit_witness :
    handlePickSide wLeague "u1" 2025 1 wSessionDurable "g1" Side.AWAY 3 7 =
      (wSessionDurable, SelectOutcome.alreadySubmitted) :=
  selectSide_immutable_after_submit wLeague "u1" 2025 1 wSessionDurable "g1" Side.AWAY 3 7
    (by decide)

/-- C8: `submitAll` on a session with zero temporary picks signals
`EmptySession`, makes no network call, and leaves all state (session and
durable store) unchanged. -/
theorem submitAll_empty_session (s : SessionState) (store : List PickRow) (netOk : Bool)
    (h : s.tempPicks = []) :
    submitAllPicks s store netOk =
      { session := s, store := store, networkCalled := false
        outcome := SubmitOutcome.emptySession } := by
  rw [submitAllPicks, if_pos (show s.tempPicks.length = 0 by rw [h]; rfl)]

/-- Witness for C8 on the concrete empty session. -/
theorem submitAll_empty_session_witness :
    submitAllPicks wSessionEmpty [wRowA] false =
      { session := wSessionEmpty, store := [wRowA], networkCalled := false
        outcome := SubmitOutcome.emptySession } :=
  submitAll_empty_session wSessionEmpty [wRowA] false rfl

/-- C4: visibility of a pick with `unlock_at = T` for a non-owner viewer is
false strictly before `T` and true from `T` on; the displayed member (the
owner of the fetched picks) always sees the pick; a pick with no
`unlock_at` is visible to every viewer at every time. -/
theorem isPickVisible_unlock_monotone :
    (∀ (pick : Pick) (owner : String) (viewer : Option String) (T : Int),
        pick.user_id = owner → pick.unlock_at = some T → viewer ≠ some owner →
        (∀ t, t < T → isPickVisible viewer owner pick t = false) ∧
        (∀ t, T ≤ t → isPickVisible viewer owner pick t = true)) ∧
    (∀ (pick : Pick) (owner : String) (t : Int),
        isPickVisible (some owner) owner pick t = true) ∧
    (∀ (pick : Pick) (owner : String) (viewer : Option String) (t : Int),
        pick.unlock_at = none → isPickVisible viewer owner pick t = true) := by
  refine ⟨?_, ?_, ?_⟩
  · intro pick owner viewer T hown hT hne
    constructor <;> intro t ht <;> simp [isPickVisible, hne, hT] <;> omega
  · intro pick owner t
    simp [isPickVisible]
  · intro pick owner viewer t h
    simp [isPickVisible, h]

/-- Witness for C4 on a concrete pick unlocking at time 1000. -/
theorem isPickVisible_unlock_monotone_witness :
    isPickVisible (some "alice") "bob" clockPick 999 = false ∧
    isPickVisible (some "alice") "bob" clockPick 1000 = true ∧
    isPickVisible (some "bob") "bob" clockPick 0 = true ∧
    isPickVisible (some "alice") "bob" openPick 0 = true :=
  ⟨(isPickVisible_unlock_monotone.1 clockPick "bob" (some "alice") 1000 rfl rfl
      (by decide)).1 999 (by decide),
   (isPickVisible_unlock_monotone.1 clockPick "bob" (some "alice") 1000 rfl rfl
      (by decide)).2 1000 (by decide),
   isPickVisible_unlock_monotone.2.1 clockPick "bob" 0,
   isPickVisible_unlock_monotone.2.2 openPick "bob" (some "alice") 0 rfl⟩

/-- C9 (amended): the visibility decision is a deterministic function of
the pick, the viewer identity and the clock value: true exactly when the
viewer is the displayed member, or no `unlock_at` is set, or the clock has
reached `unlock_at`.  (The source draws the clock from `new Date()` inside
the function rather than receiving it as a parameter; see the
counterexample.) -/
theorem isPickVisible_deterministic (c : Option String) (u : String) (pick : Pick)
    (t : Int) :
    isPickVisible c u pick t = true ↔
      (c = some u ∨ pick.unlock_at = none ∨ ∃ T, pick.unlock_at = some T ∧ T ≤ t) := by
  rcases hu : pick.unlock_at with _ | T <;> by_cases hc : c = some u <;>
    simp [isPickVisible, hu, hc]

/-- C9 counterexample: with every source-level input fixed (the pick
argument and the ambient viewer identities), the result still changes with
the ambient clock value, i.e. the source's `isPickVisible` does consult
the wall clock it reads internally via `new Date()`; it is not determined
by caller-injected inputs. -/
theorem isPickVisible_clock_counterexample :
    isPickVisible (some "alice") "bob" clockPick 0 = false ∧
    isPickVisible (some "alice") "bob" clockPick 2000 = true := by decide

/-- C10: a falsy configured `pick_limit` (absent/null, or 0) is silently
replaced by the default 5 both in `selectSide` and in the completeness
test, so a configured limit of 0 does not forbid picks. -/
theorem falsy_pick_limit_defaults :
    effectivePickLimit none = 5 ∧ effectivePickLimit (some 0) = 5 ∧
    (∀ (league : League) (userId : String) (season week : Int) (s : SessionState)
        (g : String) (side : Side) (v : Rat) (now : Int),
        league.pick_limit = none ∨ league.pick_limit = some 0 →
        handlePickSide league userId season week s g side v now =
          handlePickSide { league with pick_limit := some 5 } userId season week s g side
            v now) ∧
    (∀ (league : League) (tempPicks : List Pick),
        league.pick_limit = none ∨ league.pick_limit = some 0 →
        canSubmit (some league) tempPicks = decide ((tempPicks.length : Int) = 5)) := by
  refine ⟨by decide, by decide, ?_, ?_⟩
  · rintro ⟨lid, pl, pp⟩ userId season week s g side v now (rfl | rfl) <;>
      simp [handlePickSide, mkTempPick, effectivePickLimit]
  · rintro ⟨lid, pl, pp⟩ tempPicks (rfl | rfl) <;>
      simp [canSubmit, effectivePickLimit]

/-- Witness for C10 at concrete leagues with `pick_limit` null and 0. -/
theorem falsy_pick_limit_defaults_witness :
    handlePickSide nLeague "u1" 2025 1 wSessionEmpty "g1" Side.HOME (-3) 0 =
      handlePickSide { nLeague with pick_limit := some 5 } "u1" 2025 1 wSessionEmpty "g1"
        Side.HOME (-3) 0 ∧
    canSubmit (some zLeague) [] = decide ((([] : List Pick).length : Int) = 5) :=
  ⟨falsy_pick_limit_defaults.2.2.1 nLeague "u1" 2025 1 wSessionEmpty "g1" Side.HOME (-3) 0
      (Or.inl rfl),
   falsy_pick_limit_defaults.2.2.2 zLeague [] (Or.inr rfl)⟩

/-- C1: over any sequence of `selectSide` calls the temporary-pick count
never exceeds the (effective) pick limit; at the limit, a call for a game
with no existing temporary pick is rejected with `LimitReached` and
changes nothing; a call for a game that already has a temporary pick
replaces it without changing the count. -/
theorem selectSide_limit_invariant :
    (∀ (league : League) (userId : String) (season week : Int) (s : SessionState)
        (calls : List SelectCall),
        (s.tempPicks.length : Int) ≤ effectivePickLimit league.pick_limit →
        ((runSelects league userId season week s calls).tempPicks.length : Int) ≤
          effectivePickLimit league.pick_limit) ∧
    (∀ (league : League) (userId : String) (season week : Int) (s : SessionState)
        (g : String) (side : Side) (v : Rat) (now : Int),
        findDurablePick s g = none → findTempPick s g = none →
        effectivePickLimit league.pick_limit ≤ (s.tempPicks.length : Int) →
        handlePickSide league userId season week s g side v now =
          (s, SelectOutcome.limitReached)) ∧
    (∀ (league : League) (userId : String) (season week : Int) (s : SessionState)
        (g : String) (side : Side) (v : Rat) (now : Int) (p : Pick),
        findDurablePick s g = none → findTempPick s g = some p →
        (handlePickSide league userId season week s g side v now).1.tempPicks.length =
          s.tempPicks.length ∧
        (handlePickSide league userId season week s g side v now).2 =
          SelectOutcome.selected) := by
  refine ⟨?_, ?_, ?_⟩
  · intro league userId season week s calls
    induction calls generalizing s with
    | nil => intro h; exact h
    | cons c tl ih =>
      intro h
      rw [runSelects]
      exact ih _ (handlePickSide_length_le league userId season week s c.gameId c.side
        c.lineValue c.now h)
  · exact handlePickSide_limit
  · intro league userId season week s g side v now p hd ht
    rw [handlePickSide_replace league userId season week s g side v now p ht hd]
    exact ⟨List.length_map _ _, rfl⟩

/- ### Helper lemmas: successful selectSide calls -/

lemma handlePickSide_selected (league : League) (userId : String) (season week : Int)
    (s : SessionState) (g : String) (side : Side) (v : Rat) (now : Int)
    (hd : findDurablePick s g = none)
    (hroom : findTempPick s g = none →
      ¬ effectivePickLimit league.pick_limit ≤ (s.tempPicks.length : Int)) :
    (handlePickSide league userId season week s g side v now).2 =
      SelectOutcome.selected := by
  rcases ht : findTempPick s g with _ | p
  · rw [handlePickSide_append league userId season week s g side v now hd ht (hroom ht)]
  · rw [handlePickSide_replace league userId season week s g side v now p ht hd]

lemma findTempPick_after_select (league : League) (userId : String) (season week : Int)
    (s : SessionState) (g : String) (side : Side) (v : Rat) (now : Int)
    (hd : findDurablePick s g = none)
    (hsel : (handlePickSide league userId season week s g side v now).2 =
      SelectOutcome.selected) :
    findTempPick (handlePickSide league userId season week s g side v now).1 g =
      some (mkTempPick league userId season week g side v now) := by
  rcases ht : findTempPick s g with _ | p
  · by_cases hl : effectivePickLimit league.pick_limit ≤ (s.tempPicks.length : Int)
    · rw [handlePickSide_limit league userId season week s g side v now hd ht hl] at hsel
      cases hsel
    · rw [handlePickSide_append league userId season week s g side v now hd ht hl]
      exact find?_append_singleton s.tempPicks g _ rfl ht
  · rw [handlePickSide_replace league userId season week s g side v now p ht hd]
    exact find?_map_replace s.tempPicks g _ rfl (Option.isSome_iff_exists.mpr ⟨p, ht⟩)

lemma handlePickSide_filter_eq (league : League) (userId : String) (season week : Int)
    (s : SessionState) (g : String) (side : Side) (v : Rat) (now : Int)
    (hd : findDurablePick s g = none)
    (hsel : (handlePickSide league userId season week s g side v now).2 =
      SelectOutcome.selected)
    (hone : (s.tempPicks.filter fun p => decide (p.game_id = g)).length ≤ 1) :
    ((handlePickSide league userId season week s g side v now).1.tempPicks.filter
        fun p => decide (p.game_id = g)) =
      [mkTempPick league userId season week g side v now] := by
  rcases ht : findTempPick s g with _ | p
  · by_cases hl : effectivePickLimit league.pick_limit ≤ (s.tempPicks.length : Int)
    · rw [handlePickSide_limit league userId season week s g side v now hd ht hl] at hsel
      cases hsel
    · rw [handlePickSide_append league userId season week s g side v now hd ht hl]
      have hfil : (s.tempPicks.filter fun p => decide (p.game_id = g)) = [] :=
        List.filter_eq_nil_iff.mpr (by
          intro a ha
          simpa using List.find?_eq_none.mp ht a ha)
      show ((s.tempPicks ++ [mkTempPick league userId season week g side v now]).filter
          fun p => decide (p.game_id = g)) = _
      rw [List.filter_append, hfil]
      simp [mkTempPick]
  · rw [handlePickSide_replace league userId season week s g side v now p ht hd]
    show ((s.tempPicks.map fun q =>
        if q.game_id = g then mkTempPick league userId season week g side v now
        else q).filter fun q => decide (q.game_id = g)) = _
    rw [filter_map_replace s.tempPicks g
      (mkTempPick league userId season week g side v now) rfl]
    have hlen : (s.tempPicks.filter fun q => decide (q.game_id = g)).length = 1 := by
      refine le_antisymm hone ?_
      have ht' : List.find? (fun q => decide (q.game_id = g)) s.tempPicks = some p := ht
      have hqa : (fun q : Pick => decide (q.game_id = g)) p = true :=
        @List.find?_some Pick (fun q : Pick => decide (q.game_id = g)) p s.tempPicks ht'
      have hp : p ∈ s.tempPicks.filter fun q => decide (q.game_id = g) :=
        List.mem_filter.mpr ⟨List.mem_of_find?_eq_some ht', hqa⟩
      exact List.length_pos.mpr (List.ne_nil_of_mem hp)
    obtain ⟨x, hx⟩ := List.length_eq_one.mp hlen
    rw [hx]
    rfl

/-- C5: on an unsubmitted session, `selectSide(g, HOME, -3)` followed by
`selectSide(g, AWAY, 3)` leaves exactly one temporary pick for `g`,
carrying the side and line value of the latest call (an upsert-by-game,
not an append); and a selection for a game with no temporary pick appends
a new one. -/
theorem selectSide_upsert_by_game (league : League) (userId : String) (season week : Int)
    (s : SessionState) (g : String) (t1 t2 : Int)
    (hdur : findDurablePick s g = none)
    (hone : (s.tempPicks.filter fun p => decide (p.game_id = g)).length ≤ 1)
    (hroom : findTempPick s g = none →
      ¬ effectivePickLimit league.pick_limit ≤ (s.tempPicks.length : Int)) :
    (handlePickSide league userId season week s g Side.HOME (-3) t1).2 =
      SelectOutcome.selected ∧
    (handlePickSide league userId season week
        (handlePickSide league userId season week s g Side.HOME (-3) t1).1
        g Side.AWAY 3 t2).2 = SelectOutcome.selected ∧
    ((handlePickSide league userId season week
        (handlePickSide league userId season week s g Side.HOME (-3) t1).1
        g Side.AWAY 3 t2).1.tempPicks.filter fun p => decide (p.game_id = g)) =
      [mkTempPick league userId season week g Side.AWAY 3 t2] ∧
    (findTempPick s g = none →
      (handlePickSide league userId season week s g Side.HOME (-3) t1).1.tempPicks =
        s.tempPicks ++ [mkTempPick league userId season week g Side.HOME (-3) t1]) := by
  have hsel1 : (handlePickSide league userId season week s g Side.HOME (-3) t1).2 =
      SelectOutcome.selected :=
    handlePickSide_selected league userId season week s g Side.HOME (-3) t1 hdur hroom
  have hd1 : findDurablePick
      (handlePickSide league userId season week s g Side.HOME (-3) t1).1 g = none := by
    rw [findDurablePick, handlePickSide_picks]
    exact hdur
  have ht1 := findTempPick_after_select league userId season week s g Side.HOME (-3) t1
    hdur hsel1
  have hfil1 := handlePickSide_filter_eq league userId season week s g Side.HOME (-3) t1
    hdur hsel1 hone
  have hroom1 : findTempPick
      (handlePickSide league userId season week s g Side.HOME (-3) t1).1 g = none →
      ¬ effectivePickLimit league.pick_limit ≤
        (((handlePickSide league userId season week s g Side.HOME (-3) t1).1.tempPicks.length) :
          Int) :=
    fun habs => ((Option.some_ne_none _) (ht1.symm.trans habs)).elim
  have hsel2 := handlePickSide_selected league userId season week _ g Side.AWAY 3 t2 hd1 hroom1
  have hone1 : (((handlePickSide league userId season week s g Side.HOME (-3) t1).1.tempPicks.filter
      fun p => decide (p.game_id = g)).length) ≤ 1 := by
    rw [hfil1]
    exact Nat.le.refl
  have hfil2 := handlePickSide_filter_eq league userId season week _ g Side.AWAY 3 t2 hd1
    hsel2 hone1
  refine ⟨hsel1, hsel2, hfil2, ?_⟩
  intro habs
  rw [handlePickSide_append league userId season week s g Side.HOME (-3) t1 hdur habs
    (hroom habs)]

/-- Witness for C5 from the concrete empty session. -/
theorem selectSide_upsert_by_game_witness :
    ((handlePickSide wLeague "u1" 2025 1
        (handlePickSide wLeague "u1" 2025 1 wSessionEmpty "g1" Side.HOME (-3) 0).1
        "g1" Side.AWAY 3 9).1.tempPicks.filter fun p => decide (p.game_id = "g1")) =
      [mkTempPick wLeague "u1" 2025 1 "g1" Side.AWAY 3 9] ∧
    (handlePickSide wLeague "u1" 2025 1 wSessionEmpty "g1" Side.HOME (-3) 0).1.tempPicks =
      wSessionEmpty.tempPicks ++ [mkTempPick wLeague "u1" 2025 1 "g1" Side.HOME (-3) 0] :=
  ⟨(selectSide_upsert_by_game wLeague "u1" 2025 1 wSessionEmpty "g1" 0 9 (by decide)
      (by decide) (by decide)).2.2.1,
   (selectSide_upsert_by_game wLeague "u1" 2025 1 wSessionEmpty "g1" 0 9 (by decide)
      (by decide) (by decide)).2.2.2 (by decide)⟩

/-- C2: if the bulk submission fails, the session (its temporary picks
included) is byte-for-byte unchanged so the user may retry; if it
succeeds, the temporary picks are cleared and durable storage contains
the write row of every previously temporary pick. -/
theorem submitAll_atomic (s : SessionState) (store : List PickRow)
    (hkeys : ((s.tempPicks.map toWriteRow).map rowKey).Nodup) :
    ((submitAllPicks s store false).session = s ∧
      (submitAllPicks s store false).store = store) ∧
    (s.tempPicks ≠ [] →
      (submitAllPicks s store true).session.tempPicks = [] ∧
      ∀ p ∈ s.tempPicks, toWriteRow p ∈ (submitAllPicks s store true).store) := by
  constructor
  · by_cases hz : s.tempPicks.length = 0
    · rw [submitAllPicks, if_pos hz]
      exact ⟨rfl, rfl⟩
    · rw [submitAllPicks, if_neg hz]
      exact ⟨rfl, rfl⟩
  · intro hne
    have hz : ¬ s.tempPicks.length = 0 := by
      simpa [List.length_eq_zero] using hne
    rw [submitAllPicks, if_neg hz, if_pos rfl]
    refine ⟨rfl, ?_⟩
    intro p hp
    exact mem_upsertRows_self (s.tempPicks.map toWriteRow) store (toWriteRow p)
      (List.mem_map_of_mem toWriteRow hp) hkeys

/-- Witness for C1: two calls against limit 1 from the empty session; a
rejected call at the limit; a replacing call at the limit. -/
theorem selectSide_limit_invariant_witness :
    ((runSelects wLeague "u1" 2025 1 wSessionEmpty
        [{ gameId := "g1", side := Side.HOME, lineValue := -3, now := 0 },
         { gameId := "g2", side := Side.AWAY, lineValue := 3, now := 0 }]).tempPicks.length :
        Int) ≤ effectivePickLimit wLeague.pick_limit ∧
    handlePickSide wLeague "u1" 2025 1 wSessionTemp "g2" Side.HOME (-3) 0 =
      (wSessionTemp, SelectOutcome.limitReached) ∧
    ((handlePickSide wLeague "u1" 2025 1 wSessionTemp "g1" Side.AWAY 3 5).1.tempPicks.length =
        wSessionTemp.tempPicks.length ∧
      (handlePickSide wLeague "u1" 2025 1 wSessionTemp "g1" Side.AWAY 3 5).2 =
        SelectOutcome.selected) :=
  ⟨selectSide_limit_invariant.1 wLeague "u1" 2025 1 wSessionEmpty _ (by decide),
   selectSide_limit_invariant.2.1 wLeague "u1" 2025 1 wSessionTemp "g2" Side.HOME (-3) 0
     (by decide) (by decide) (by decide),
   selectSide_limit_invariant.2.2 wLeague "u1" 2025 1 wSessionTemp "g1" Side.AWAY 3 5 wPickA
     (by decide) (by decide)⟩

/-- C7: a successful `selectSide` at moment `now` stores a temporary pick
whose `unlock_at` is `computeUnlockAt now`, freshly computed from `now`
(never inherited from a prior pick), and that value is the spec's
Saturday-12:00 point of the calendar week containing `now` shifted by the
fixed 5-hour offset: a Saturday (day 6), at 12:00 of its day, in the same
Sunday-based week as `now`. -/
theorem selectSide_unlock_fresh_saturday :
    (∀ (league : League) (userId : String) (season week : Int) (s : SessionState)
        (g : String) (side : Side) (v : Rat) (now : Int),
        findDurablePick s g = none →
        (handlePickSide league userId season week s g side v now).2 =
          SelectOutcome.selected →
        findTempPick (handlePickSide league userId season week s g side v now).1 g =
          some (mkTempPick league userId season week g side v now)) ∧
    (∀ (league : League) (userId : String) (season week : Int) (g : String)
        (side : Side) (v : Rat) (now : Int),
        (mkTempPick league userId season week g side v now).unlock_at =
          some (computeUnlockAt now)) ∧
    (∀ now : Int, computeUnlockAt now = saturdayNoonOfWeek now + 5 * msPerHour) ∧
    (∀ now : Int,
        jsGetDay (saturdayNoonOfWeek now) = 6 ∧
        saturdayNoonOfWeek now - startOfDay (saturdayNoonOfWeek now) = 12 * msPerHour ∧
        startOfWeekSunday (saturdayNoonOfWeek now) = startOfWeekSunday now) := by
  refine ⟨?_, fun _ _ _ _ _ _ _ _ => rfl, fun now => by rw [computeUnlockAt, saturdayNoonOfWeek],
    fun now => ⟨jsGetDay_saturdayNoon now, saturdayNoon_time_of_day now,
      startOfWeekSunday_saturdayNoon now⟩⟩
  intro league userId season week s g side v now hd hsel
  rcases ht : findTempPick s g with _ | p
  · by_cases hl : effectivePickLimit league.pick_limit ≤ (s.tempPicks.length : Int)
    · rw [handlePickSide_limit league userId season week s g side v now hd ht hl] at hsel
      cases hsel
    · rw [handlePickSide_append league userId season week s g side v now hd ht hl]
      exact find?_append_singleton s.tempPicks g _ rfl ht
  · rw [handlePickSide_replace league userId season week s g side v now p ht hd]
    exact find?_map_replace s.tempPicks g _ rfl (Option.isSome_iff_exists.mpr ⟨p, ht⟩)

/-- Witness for C7: a concrete successful call stores the freshly
computed pick. -/
theorem selectSide_unlock_fresh_saturday_witness :
    findTempPick (handlePickSide wLeague "u1" 2025 1 wSessionEmpty "g1" Side.HOME (-3) 0).1
        "g1" = some (mkTempPick wLeague "u1" 2025 1 "g1" Side.HOME (-3) 0) :=
  selectSide_unlock_fresh_saturday.1 wLeague "u1" 2025 1 wSessionEmpty "g1" Side.HOME (-3) 0
    rfl (by decide)

/-- Witness for C2 on the concrete one-pick session. -/
theorem submitAll_atomic_witness :
    ((submitAllPicks wSessionTemp [] false).session = wSessionTemp ∧
      (submitAllPicks wSessionTemp [] false).store = []) ∧
    ((submitAllPicks wSessionTemp [] true).session.tempPicks = [] ∧
      ∀ p ∈ wSessionTemp.tempPicks, toWriteRow p ∈ (submitAllPicks wSessionTemp [] true).store) :=
  ⟨(submitAll_atomic wSessionTemp [] (by decide)).1,
   (submitAll_atomic wSessionTemp [] (by decide)).2 (by decide)⟩

/-- C6: every row written by `submitAll` carries `locked = false`
(`toWriteRow` forces it), the store written on success is exactly the
keyed upsert of the session rows, and the upsert is keyed on the
composite identity: a key match overwrites in place (same store length,
new row present) instead of duplicating, a key miss appends. -/
theorem submitAll_upsert_locked_false :
    (∀ p : Pick, (toWriteRow p).locked = false) ∧
    (∀ (s : SessionState) (store : List PickRow), s.tempPicks ≠ [] →
        (submitAllPicks s store true).store =
          upsertRows store (s.tempPicks.map toWriteRow)) ∧
    (∀ (store : List PickRow) (r : PickRow),
        store.any (fun x => decide (rowKey x = rowKey r)) = true →
        (upsertOne store r).length = store.length ∧ r ∈ upsertOne store r) ∧
    (∀ (store : List PickRow) (r : PickRow),
        store.any (fun x => decide (rowKey x = rowKey r)) = false →
        upsertOne store r = store ++ [r]) := by
  refine ⟨fun p => rfl, ?_, upsertOne_overwrite, upsertOne_insert⟩
  intro s store hne
  have hz : ¬ s.tempPicks.length = 0 := by
    simpa [List.length_eq_zero] using hne
  rw [submitAllPicks, if_neg hz, if_pos rfl]

/-- Witness for C6: concrete overwrite (same key, different side) and
insert cases. -/
theorem submitAll_upsert_locked_false_witness :
    (toWriteRow wPickA).locked = false ∧
    (submitAllPicks wSessionTemp [] true).store =
      upsertRows [] (wSessionTemp.tempPicks.map toWriteRow) ∧
    ((upsertOne [wRowA] wRowB).length = [wRowA].length ∧ wRowB ∈ upsertOne [wRowA] wRowB) ∧
    upsertOne [] wRowA = [] ++ [wRowA] :=
  ⟨submitAll_upsert_locked_false.1 wPickA,
   submitAll_upsert_locked_false.2.1 wSessionTemp [] (by decide),
   submitAll_upsert_locked_false.2.2.1 [wRowA] wRowB (by decide),
   submitAll_upsert_locked_false.2.2.2 [] wRowA (by decide)⟩

end CFB
